import Mathlib

/-!
Verification of the per-user meeting-statistics module of a video-conferencing
web application (`src/modules/meetingStats.js`).

The module keeps two persistent collections — one aggregate `MeetingStats`
document per user and many individual `MeetingRecord` documents — and exposes
helper operations (`getUserStats`, `recordMeetingStart`, `recordMeetingEnd`,
`getFormattedStats`, `resetMonthlyStats`, `getRecentMeetings`), REST routes,
and real-time socket handlers built on them.

The embedding below models the persistent store as two Lean lists (documents in
insertion order, matching the store's natural order used by `findOne`), machine
time as an explicit integer parameter `now` (milliseconds since the epoch), and
JavaScript numeric primitives (`Math.round`, `Math.floor`, `%`) as functions on
`ℚ` and `ℤ`.
-/

namespace MeetingStatsModel

/-- JavaScript `Math.round`: the nearest integer, with ties rounded toward
positive infinity, i.e. `⌊q + 1/2⌋`. -/
def jsRound (q : ℚ) : ℤ := ⌊q + 1/2⌋

/-- JavaScript `Math.floor(a / b)` for integer `a`, `b`: floor division. -/
def jsFloorDiv (a b : ℤ) : ℤ := Int.fdiv a b

/-- JavaScript remainder `a % b` for integers: truncated remainder, carrying
the sign of the dividend (`-5 % 60 = -5` in JavaScript). JavaScript's negative
zero renders as `"0"`, exactly like the integer `0` here. -/
def jsMod (a b : ℤ) : ℤ := Int.tmod a b

/-- `formatDuration` (meetingStats.js lines 51-55):
`hours = Math.floor(minutes / 60)`, `mins = minutes % 60`,
rendered as the template string `hours ++ "h " ++ mins ++ "m"`. -/
def formatDuration (minutes : ℤ) : String :=
  toString (jsFloorDiv minutes 60) ++ "h " ++ toString (jsMod minutes 60) ++ "m"

/-- `calculatePercentageChange` (meetingStats.js lines 58-61):
`if (previous === 0) return current > 0 ? 100 : 0;`
`return Math.round(((current - previous) / previous) * 100);` -/
def calculatePercentageChange (current previous : ℤ) : ℤ :=
  if previous = 0 then (if current > 0 then 100 else 0)
  else jsRound (((current : ℚ) - (previous : ℚ)) / (previous : ℚ) * 100)

/-- The `status` enum of the meeting-record schema (lines 39-43). -/
inductive Status where
  | active
  | completed
  | cancelled
deriving DecidableEq

/-- The `lastMonthStats` sub-document of the statistics schema (lines 15-20). -/
structure MonthSnapshot where
  totalCalls : ℤ
  totalDuration : ℤ
  totalParticipants : ℤ
  meetingsScheduled : ℤ
deriving DecidableEq

/-- A `MeetingStats` document (schema lines 4-23): the per-user aggregate.
User identities are modelled as naturals, dates as integer milliseconds. -/
structure MeetingStats where
  userId : ℕ
  totalCalls : ℤ
  totalDuration : ℤ
  totalParticipants : ℤ
  meetingsScheduled : ℤ
  lastMonthStats : MonthSnapshot
  lastUpdated : ℤ
  createdAt : ℤ
deriving DecidableEq

/-- A `MeetingRecord` document (schema lines 26-45): one row per call.
`endTime` is optional in the schema, hence `Option`. -/
structure MeetingRecord where
  userId : ℕ
  meetingId : String
  meetingTitle : String
  startTime : ℤ
  endTime : Option ℤ
  duration : ℤ
  participantCount : ℤ
  isScheduled : Bool
  status : Status
  createdAt : ℤ
deriving DecidableEq

/-- The persistent store: the two collections, documents in insertion order. -/
structure Store where
  meetingStats : List MeetingStats
  meetingRecords : List MeetingRecord
deriving DecidableEq

/-- The lookup key used by every `findOne({ userId })` on the stats
collection. -/
def statsKey (userId : ℕ) (st : MeetingStats) : Bool :=
  st.userId == userId

/-- The query `{ userId, meetingId, status: 'active' }` used by
`recordMeetingEnd` (lines 113-117). -/
def isActiveFor (userId : ℕ) (meetingId : String) (r : MeetingRecord) : Bool :=
  r.userId == userId && r.meetingId == meetingId && r.status == Status.active

/-- Replace the first element satisfying `p` by its image under `f`; this is
how saving a mutated fetched document acts on the collection. -/
def updateFirst (p : α → Bool) (f : α → α) : List α → List α
  | [] => []
  | a :: as => if p a then f a :: as else a :: updateFirst p f as

/-- A fresh zero-valued stats document, as produced by
`new MeetingStats({ userId })` with the schema defaults (lines 11-22). -/
def newStats (now : ℤ) (userId : ℕ) : MeetingStats :=
  { userId := userId, totalCalls := 0, totalDuration := 0,
    totalParticipants := 0, meetingsScheduled := 0,
    lastMonthStats := ⟨0, 0, 0, 0⟩, lastUpdated := now, createdAt := now }

/-- `getUserStats` (lines 64-78): `findOne({ userId })`; when absent, create
and save a fresh zero-valued document. Returns the document together with the
resulting store. -/
def getUserStats (now : ℤ) (userId : ℕ) (s : Store) : MeetingStats × Store :=
  match s.meetingStats.find? (statsKey userId) with
  | some st => (st, s)
  | none =>
      let st := newStats now userId
      (st, { s with meetingStats := s.meetingStats ++ [st] })

/-- Message of the duplicate-key error MongoDB raises when an insert violates
the unique index on `userId`. -/
def dupKeyMessage : String := "E11000 duplicate key error"

/-- `getUserStats` together with the store's unique-index reaction on the
save of a freshly created document. `raceInserted` is the list of stats
documents inserted by concurrent operations between this operation's
`findOne` and its `save`; when one of them claims the same `userId`, the save
fails with a duplicate-key error, which the `catch` block of lines 74-77 logs
and rethrows (there is no re-read). -/
def getUserStatsRace (now : ℤ) (userId : ℕ) (raceInserted : List MeetingStats)
    (s : Store) : Except String (MeetingStats × Store) :=
  match s.meetingStats.find? (statsKey userId) with
  | some st => .ok (st, s)
  | none =>
      let s1 : Store := { s with meetingStats := s.meetingStats ++ raceInserted }
      if s1.meetingStats.any (statsKey userId) then
        .error dupKeyMessage
      else
        let st := newStats now userId
        .ok (st, { s1 with meetingStats := s1.meetingStats ++ [st] })

/-- `recordMeetingStart` (lines 81-108): save a new active record with
`startTime = now` and the schema defaults, then fetch-or-create the user's
stats, bump `totalCalls` (and `meetingsScheduled` when `isScheduled`), stamp
`lastUpdated`, and save. Returns the created record and the new store. -/
def recordMeetingStart (now : ℤ) (userId : ℕ) (meetingId meetingTitle : String)
    (isScheduled : Bool) (s : Store) : MeetingRecord × Store :=
  let r : MeetingRecord :=
    { userId := userId, meetingId := meetingId, meetingTitle := meetingTitle,
      startTime := now, endTime := none, duration := 0, participantCount := 1,
      isScheduled := isScheduled, status := Status.active, createdAt := now }
  let s1 : Store := { s with meetingRecords := s.meetingRecords ++ [r] }
  let gs := getUserStats now userId s1
  let st2 := { gs.1 with
    totalCalls := gs.1.totalCalls + 1,
    meetingsScheduled :=
      if isScheduled then gs.1.meetingsScheduled + 1 else gs.1.meetingsScheduled,
    lastUpdated := now }
  (r, { gs.2 with
        meetingStats := updateFirst (statsKey userId) (fun _ => st2) gs.2.meetingStats })

/-- `recordMeetingEnd` (lines 111-145): `findOne({ userId, meetingId,
status: 'active' })`; when absent, return null and touch nothing. Otherwise
set `endTime = now`, `duration = Math.round((endTime - startTime) / 60000)`
(no clamping), the given `participantCount`, and `status = 'completed'`; save;
then fetch-or-create the user's stats, add `duration` and `participantCount`,
stamp `lastUpdated`, and save. -/
def recordMeetingEnd (now : ℤ) (userId : ℕ) (meetingId : String)
    (participantCount : ℤ) (s : Store) : Option MeetingRecord × Store :=
  match s.meetingRecords.find? (isActiveFor userId meetingId) with
  | none => (none, s)
  | some r =>
      let duration := jsRound (((now : ℚ) - (r.startTime : ℚ)) / (1000 * 60))
      let r2 := { r with
        endTime := some now, duration := duration,
        participantCount := participantCount, status := Status.completed }
      let s1 : Store :=
        { s with meetingRecords :=
            updateFirst (isActiveFor userId meetingId) (fun _ => r2) s.meetingRecords }
      let gs := getUserStats now userId s1
      let st2 := { gs.1 with
        totalDuration := gs.1.totalDuration + duration,
        totalParticipants := gs.1.totalParticipants + participantCount,
        lastUpdated := now }
      (some r2,
       { gs.2 with
         meetingStats := updateFirst (statsKey userId) (fun _ => st2) gs.2.meetingStats })

/-- The three-way classification of a percentage change used by
`getFormattedStats` (lines 162, 168, 173, 178). -/
def changeTypeOf (change : ℤ) : String :=
  if change > 0 then "positive" else if change < 0 then "negative" else "neutral"

/-- One numeric card of the formatted view. -/
structure StatCard where
  value : ℤ
  change : ℤ
  changeType : String
deriving DecidableEq

/-- The duration card of the formatted view, which also carries the
human-readable string. -/
structure DurationCard where
  value : String
  rawValue : ℤ
  change : ℤ
  changeType : String
deriving DecidableEq

/-- The display projection returned by `getFormattedStats` (lines 158-181). -/
structure FormattedView where
  totalCalls : StatCard
  totalDuration : DurationCard
  totalParticipants : StatCard
  meetingsScheduled : StatCard
  lastUpdated : ℤ
deriving DecidableEq

/-- `getFormattedStats` (lines 148-186): fetch-or-create the stats, compute
the four percentage changes against `lastMonthStats`, and build the view. -/
def getFormattedStats (now : ℤ) (userId : ℕ) (s : Store) : FormattedView × Store :=
  let gs := getUserStats now userId s
  let st := gs.1
  let callsChange := calculatePercentageChange st.totalCalls st.lastMonthStats.totalCalls
  let durationChange := calculatePercentageChange st.totalDuration st.lastMonthStats.totalDuration
  let participantsChange :=
    calculatePercentageChange st.totalParticipants st.lastMonthStats.totalParticipants
  let scheduledChange :=
    calculatePercentageChange st.meetingsScheduled st.lastMonthStats.meetingsScheduled
  ({ totalCalls :=
       { value := st.totalCalls, change := callsChange,
         changeType := changeTypeOf callsChange },
     totalDuration :=
       { value := formatDuration st.totalDuration, rawValue := st.totalDuration,
         change := durationChange, changeType := changeTypeOf durationChange },
     totalParticipants :=
       { value := st.totalParticipants, change := participantsChange,
         changeType := changeTypeOf participantsChange },
     meetingsScheduled :=
       { value := st.meetingsScheduled, change := scheduledChange,
         changeType := changeTypeOf scheduledChange },
     lastUpdated := st.lastUpdated }, gs.2)

/-- The per-document update of `resetMonthlyStats` (lines 194-199): copy the
four live counters into `lastMonthStats`; nothing else changes. -/
def rollOver (st : MeetingStats) : MeetingStats :=
  { st with lastMonthStats :=
      { totalCalls := st.totalCalls, totalDuration := st.totalDuration,
        totalParticipants := st.totalParticipants,
        meetingsScheduled := st.meetingsScheduled } }

/-- `resetMonthlyStats` (lines 189-208): apply `rollOver` to every stats
document and save each one. -/
def resetMonthlyStats (s : Store) : Store :=
  { s with meetingStats := s.meetingStats.map rollOver }

/-- One element of the list returned by `getRecentMeetings`: the record's
fields spread together with the two formatted strings (lines 218-222). -/
structure MeetingView where
  record : MeetingRecord
  formattedDuration : String
  formattedStartTime : String
deriving DecidableEq

/-- `getRecentMeetings` (lines 211-227): `find({ userId })`, sort by
`startTime` descending, apply the cursor limit, and project each record.
MongoDB cursor semantics for `limit(n)`: `0` means no limit, a negative `n`
caps the result at `|n|` documents. `toLocaleString` is locale-dependent, so
the start-time renderer is a parameter `fmtTime`. -/
def getRecentMeetings (fmtTime : ℤ → String) (userId : ℕ) (limit : ℤ)
    (s : Store) : List MeetingView :=
  let sorted := (s.meetingRecords.filter (fun r => r.userId == userId)).mergeSort
    (fun a b => decide (b.startTime ≤ a.startTime))
  let limited := if limit = 0 then sorted else sorted.take limit.natAbs
  limited.map (fun m =>
    { record := m, formattedDuration := formatDuration m.duration,
      formattedStartTime := fmtTime m.startTime })

/-- The limit parsing of the `/api/recent-meetings` route (line 257):
`parseInt(req.query.limit) || 10`. An absent or non-numeric query yields
`NaN`, which is falsy, and a supplied `0` is also falsy; both fall back to
`10`. The query is modelled as an optional integer. -/
def parseLimit (q : Option ℤ) : ℤ :=
  match q with
  | none => 10
  | some n => if n = 0 then 10 else n

/-- The `/api/recent-meetings` read (lines 249-264) for an authenticated
user: parse the limit and delegate to `getRecentMeetings`. -/
def apiRecentMeetings (fmtTime : ℤ → String) (userId : ℕ) (q : Option ℤ)
    (s : Store) : List MeetingView :=
  getRecentMeetings fmtTime userId (parseLimit q) s

/-- A payload pushed over the real-time channel: a formatted view (to the
originator), a view tagged with the user (broadcast), or an error message. -/
inductive RelayPayload where
  | view (v : FormattedView)
  | userView (userId : ℕ) (v : FormattedView)
  | errorMessage (msg : String)
deriving DecidableEq

/-- One socket emission: either to the originating connection
(`socket.emit`) or a broadcast to all other connections
(`socket.broadcast.emit`). -/
inductive Emission where
  | toOrigin (event : String) (payload : RelayPayload)
  | broadcastAll (event : String) (payload : RelayPayload)
deriving DecidableEq

/-- Whether an emission is a broadcast. -/
def Emission.isBroadcast : Emission → Bool
  | .toOrigin _ _ => false
  | .broadcastAll _ _ => true

/-- The generic error message emitted by both socket handlers
(lines 311, 329). -/
def statsErrorMessage : String := "Failed to update meeting statistics"

/-- `handleMeetingStart` (lines 297-313). `storeOk` models whether the
awaited persistent-store operations inside the `try` block succeed; both
awaits precede both emits, so on failure the `catch` block emits exactly one
`stats-error` to the originating connection and nothing is broadcast. On
success the originator gets the view and all other connections get
`{ userId, stats }`. -/
def handleMeetingStartEmits (storeOk : Bool) (now : ℤ) (userId : ℕ)
    (meetingId meetingTitle : String) (isScheduled : Bool) (s : Store) :
    List Emission × Store :=
  if storeOk then
    let s1 := (recordMeetingStart now userId meetingId meetingTitle isScheduled s).2
    let gv := getFormattedStats now userId s1
    ([Emission.toOrigin "stats-updated" (RelayPayload.view gv.1),
      Emission.broadcastAll "stats-updated" (RelayPayload.userView userId gv.1)],
     gv.2)
  else
    ([Emission.toOrigin "stats-error" (RelayPayload.errorMessage statsErrorMessage)], s)

/-- `handleMeetingEnd` (lines 315-331), analogous to `handleMeetingStartEmits`;
the null result of `recordMeetingEnd` is ignored, only its store effect is
kept. -/
def handleMeetingEndEmits (storeOk : Bool) (now : ℤ) (userId : ℕ)
    (meetingId : String) (participantCount : ℤ) (s : Store) :
    List Emission × Store :=
  if storeOk then
    let s1 := (recordMeetingEnd now userId meetingId participantCount s).2
    let gv := getFormattedStats now userId s1
    ([Emission.toOrigin "stats-updated" (RelayPayload.view gv.1),
      Emission.broadcastAll "stats-updated" (RelayPayload.userView userId gv.1)],
     gv.2)
  else
    ([Emission.toOrigin "stats-error" (RelayPayload.errorMessage statsErrorMessage)], s)

/-- The empty store. -/
def emptyStore : Store := { meetingStats := [], meetingRecords := [] }

/-- A sample in-progress meeting record for user 1, started at the epoch. -/
def sampleActiveRecord : MeetingRecord :=
  { userId := 1, meetingId := "m1", meetingTitle := "Video Call",
    startTime := 0, endTime := none, duration := 0, participantCount := 1,
    isScheduled := false, status := Status.active, createdAt := 0 }

/-- A sample store holding exactly one active record and one stats document
for user 1. -/
def sampleStoreActive : Store :=
  { meetingStats :=
      [{ userId := 1, totalCalls := 1, totalDuration := 7, totalParticipants := 4,
         meetingsScheduled := 0, lastMonthStats := ⟨0, 0, 0, 0⟩,
         lastUpdated := 0, createdAt := 0 }],
    meetingRecords := [sampleActiveRecord] }

/-- A sample completed meeting record for user 1. -/
def sampleCompletedRecord : MeetingRecord :=
  { userId := 1, meetingId := "m0", meetingTitle := "Video Call",
    startTime := 5, endTime := some 125, duration := 2, participantCount := 2,
    isScheduled := false, status := Status.completed, createdAt := 5 }

/-- A sample store holding exactly one (completed) meeting record. -/
def sampleStoreOneMeeting : Store :=
  { meetingStats := [], meetingRecords := [sampleCompletedRecord] }

/-! ### Helper lemmas -/

theorem jsRound_intCast (n : ℤ) : jsRound (n : ℚ) = n := by
  rw [jsRound, Int.floor_eq_iff]
  constructor <;> linarith

theorem jsRound_eq_of {q : ℚ} {z : ℤ} (h1 : (z : ℚ) ≤ q + 1/2)
    (h2 : q + 1/2 < (z : ℚ) + 1) : jsRound q = z := by
  rw [jsRound, Int.floor_eq_iff]
  exact ⟨h1, by linarith⟩

theorem find?_updateFirst_const {α : Type} {p : α → Bool} {b : α}
    (hb : p b = true) :
    ∀ {l : List α} {a : α}, l.find? p = some a →
      (updateFirst p (fun _ => b) l).find? p = some b := by
  intro l
  induction l with
  | nil => intro a h; simp [List.find?] at h
  | cons x xs ih =>
    intro a h
    by_cases hx : p x = true
    · simp [updateFirst, hx, List.find?, hb]
    · have hx2 : p x = false := by simpa using hx
      rw [List.find?_cons_of_neg _ (by simp [hx2])] at h
      simpa [updateFirst, hx2, List.find?_cons_of_neg _ (by simp [hx2] : ¬ p x = true)]
        using ih h

theorem statsKey_newStats (now : ℤ) (u : ℕ) : statsKey u (newStats now u) = true := by
  simp [statsKey, newStats]

theorem getUserStats_meetingRecords (now : ℤ) (u : ℕ) (s : Store) :
    (getUserStats now u s).2.meetingRecords = s.meetingRecords := by
  rcases h : s.meetingStats.find? (statsKey u) with _ | st <;> simp [getUserStats, h]

theorem getUserStats_find? (now : ℤ) (u : ℕ) (s : Store) :
    (getUserStats now u s).2.meetingStats.find? (statsKey u) =
      some (getUserStats now u s).1 := by
  rcases h : s.meetingStats.find? (statsKey u) with _ | st
  · simp [getUserStats, h, List.find?_append, statsKey_newStats]
  · simp [getUserStats, h]

theorem getUserStats_fst (now : ℤ) (u : ℕ) (s : Store) :
    (getUserStats now u s).1 = (s.meetingStats.find? (statsKey u)).getD (newStats now u) := by
  rcases h : s.meetingStats.find? (statsKey u) with _ | st <;> simp [getUserStats, h]

theorem statsKey_getUserStats (now : ℤ) (u : ℕ) (s : Store) :
    statsKey u (getUserStats now u s).1 = true := by
  rcases h : s.meetingStats.find? (statsKey u) with _ | st
  · simp [getUserStats, h, statsKey_newStats]
  · have := List.find?_some h
    simpa [getUserStats, h] using this

/-! ### Claims -/

/-- C1: the percentage-change function returns 100 when the baseline is zero
and the current value is positive, 0 when the baseline is zero and the current
value is nonpositive, and otherwise the JavaScript rounding of
`(current - baseline) / baseline * 100`; in particular
`calculatePercentageChange 0 0 = 0`, `= 100` on `(x, 0)` for positive `x`,
`= 10` on `(110, 100)`, and `= -10` on `(90, 100)`. -/
theorem c1_percentageChange :
    (∀ current previous : ℤ, previous ≠ 0 →
        calculatePercentageChange current previous =
          jsRound (((current : ℚ) - (previous : ℚ)) / (previous : ℚ) * 100))
    ∧ (∀ current : ℤ, 0 < current → calculatePercentageChange current 0 = 100)
    ∧ (∀ current : ℤ, current ≤ 0 → calculatePercentageChange current 0 = 0)
    ∧ calculatePercentageChange 0 0 = 0
    ∧ calculatePercentageChange 110 100 = 10
    ∧ calculatePercentageChange 90 100 = -10 := by
  refine ⟨?_, ?_, ?_, ?_, ?_, ?_⟩
  · intro c p hp
    simp [calculatePercentageChange, hp]
  · intro c hc
    simp [calculatePercentageChange, hc]
  · intro c hc
    simp [calculatePercentageChange, not_lt.mpr hc]
  · decide
  · simp only [calculatePercentageChange]
    rw [if_neg (show ¬ (100 : ℤ) = 0 by norm_num)]
    apply jsRound_eq_of <;> norm_num
  · simp only [calculatePercentageChange]
    rw [if_neg (show ¬ (100 : ℤ) = 0 by norm_num)]
    apply jsRound_eq_of <;> norm_num

theorem c1_percentageChange_witness :
    calculatePercentageChange 110 100 =
      jsRound ((((110 : ℤ) : ℚ) - ((100 : ℤ) : ℚ)) / ((100 : ℤ) : ℚ) * 100)
    ∧ ((0 : ℤ) < 3 ∧ calculatePercentageChange 3 0 = 100)
    ∧ ((-2 : ℤ) ≤ 0 ∧ calculatePercentageChange (-2) 0 = 0) :=
  ⟨c1_percentageChange.1 110 100 (by norm_num),
   ⟨by norm_num, c1_percentageChange.2.1 3 (by norm_num)⟩,
   ⟨by norm_num, c1_percentageChange.2.2.1 (-2) (by norm_num)⟩⟩

/-- C3: when no active record matches `(userId, meetingId)`,
`recordMeetingEnd` returns null and leaves the store completely unchanged. -/
theorem c3_end_noActive (now : ℤ) (u : ℕ) (mid : String) (pc : ℤ) (s : Store)
    (h : s.meetingRecords.find? (isActiveFor u mid) = none) :
    recordMeetingEnd now u mid pc s = (none, s) := by
  simp [recordMeetingEnd, h]

theorem c3_end_noActive_witness :
    emptyStore.meetingRecords.find? (isActiveFor 1 "m1") = none
    ∧ recordMeetingEnd 0 1 "m1" 1 emptyStore = (none, emptyStore) :=
  ⟨by decide, c3_end_noActive 0 1 "m1" 1 emptyStore (by decide)⟩

/-- C2: when an active record matches `(userId, meetingId)`,
`recordMeetingEnd` completes exactly that record — `endTime := now`,
`duration := round((now - startTime) / 60000)` stored without clamping,
the given participant count, `status := completed` — and adds the duration
and the participant count to the user's aggregate counters, stamping
`lastUpdated`. -/
theorem c2_end_active (now : ℤ) (u : ℕ) (mid : String) (pc : ℤ) (s : Store)
    (r : MeetingRecord)
    (h : s.meetingRecords.find? (isActiveFor u mid) = some r) :
    (recordMeetingEnd now u mid pc s).1 =
      some { r with
        endTime := some now,
        duration := jsRound (((now : ℚ) - (r.startTime : ℚ)) / (1000 * 60)),
        participantCount := pc, status := Status.completed }
    ∧ (recordMeetingEnd now u mid pc s).2.meetingRecords =
        updateFirst (isActiveFor u mid)
          (fun _ => { r with
            endTime := some now,
            duration := jsRound (((now : ℚ) - (r.startTime : ℚ)) / (1000 * 60)),
            participantCount := pc, status := Status.completed })
          s.meetingRecords
    ∧ ∃ st : MeetingStats,
        (recordMeetingEnd now u mid pc s).2.meetingStats.find? (statsKey u) = some st
        ∧ st.totalDuration =
            ((s.meetingStats.find? (statsKey u)).map MeetingStats.totalDuration).getD 0
              + jsRound (((now : ℚ) - (r.startTime : ℚ)) / (1000 * 60))
        ∧ st.totalParticipants =
            ((s.meetingStats.find? (statsKey u)).map MeetingStats.totalParticipants).getD 0
              + pc
        ∧ st.lastUpdated = now := by
  refine ⟨?_, ?_, ?_⟩
  · simp [recordMeetingEnd, h]
  · simp only [recordMeetingEnd, h]
    exact getUserStats_meetingRecords now u _
  · simp only [recordMeetingEnd, h]
    refine ⟨_, find?_updateFirst_const ?_ (getUserStats_find? now u _), ?_, ?_, ?_⟩
    · exact statsKey_getUserStats now u _
    · simp only [getUserStats_fst]
      rcases hf : s.meetingStats.find? (statsKey u) with _ | st0 <;>
        simp [hf, newStats]
    · simp only [getUserStats_fst]
      rcases hf : s.meetingStats.find? (statsKey u) with _ | st0 <;>
        simp [hf, newStats]
    · rfl

theorem c2_end_active_witness :
    sampleStoreActive.meetingRecords.find? (isActiveFor 1 "m1") = some sampleActiveRecord
    ∧ (recordMeetingEnd 120000 1 "m1" 3 sampleStoreActive).1 =
        some { sampleActiveRecord with
          endTime := some 120000,
          duration :=
            jsRound ((((120000 : ℤ) : ℚ) - (sampleActiveRecord.startTime : ℚ)) / (1000 * 60)),
          participantCount := 3, status := Status.completed } :=
  ⟨by decide,
   (c2_end_active 120000 1 "m1" 3 sampleStoreActive sampleActiveRecord (by decide)).1⟩

/-- C4: `recordMeetingStart` returns and inserts a new record with
`status := active`, `startTime := now` and the schema defaults, increments
the user's `totalCalls` by one, increments `meetingsScheduled` exactly when
`isScheduled` is true, and stamps `lastUpdated`. -/
theorem c4_start (now : ℤ) (u : ℕ) (mid title : String) (sch : Bool)
    (s : Store) :
    (recordMeetingStart now u mid title sch s).1 =
      { userId := u, meetingId := mid, meetingTitle := title, startTime := now,
        endTime := none, duration := 0, participantCount := 1,
        isScheduled := sch, status := Status.active, createdAt := now }
    ∧ (recordMeetingStart now u mid title sch s).2.meetingRecords =
        s.meetingRecords ++ [(recordMeetingStart now u mid title sch s).1]
    ∧ ∃ st : MeetingStats,
        (recordMeetingStart now u mid title sch s).2.meetingStats.find? (statsKey u) =
          some st
        ∧ st.totalCalls =
            ((s.meetingStats.find? (statsKey u)).map MeetingStats.totalCalls).getD 0 + 1
        ∧ st.meetingsScheduled =
            ((s.meetingStats.find? (statsKey u)).map MeetingStats.meetingsScheduled).getD 0
              + (if sch then 1 else 0)
        ∧ st.lastUpdated = now := by
  refine ⟨rfl, ?_, ?_⟩
  · simp only [recordMeetingStart]
    rw [getUserStats_meetingRecords]
  · simp only [recordMeetingStart]
    refine ⟨_, find?_updateFirst_const ?_ (getUserStats_find? now u _), ?_, ?_, ?_⟩
    · exact statsKey_getUserStats now u _
    · simp only [getUserStats_fst]
      rcases hf : s.meetingStats.find? (statsKey u) with _ | st0 <;>
        simp [hf, newStats]
    · simp only [getUserStats_fst]
      rcases hf : s.meetingStats.find? (statsKey u) with _ | st0 <;>
        rcases sch with _ | _ <;> simp [hf, newStats]
    · rfl

/-- C5: `resetMonthlyStats` copies, for every stats document, the four live
counters verbatim into `lastMonthStats`, and leaves every other field —
the four live counters included — unchanged; the meeting-record collection
is untouched. -/
theorem c5_rollOverMonth (s : Store) (i : ℕ) (h : i < s.meetingStats.length) :
    (resetMonthlyStats s).meetingRecords = s.meetingRecords
    ∧ (resetMonthlyStats s).meetingStats.length = s.meetingStats.length
    ∧ ∀ h2 : i < (resetMonthlyStats s).meetingStats.length,
        ((resetMonthlyStats s).meetingStats.get ⟨i, h2⟩).lastMonthStats =
          { totalCalls := (s.meetingStats.get ⟨i, h⟩).totalCalls,
            totalDuration := (s.meetingStats.get ⟨i, h⟩).totalDuration,
            totalParticipants := (s.meetingStats.get ⟨i, h⟩).totalParticipants,
            meetingsScheduled := (s.meetingStats.get ⟨i, h⟩).meetingsScheduled }
        ∧ ((resetMonthlyStats s).meetingStats.get ⟨i, h2⟩).totalCalls =
            (s.meetingStats.get ⟨i, h⟩).totalCalls
        ∧ ((resetMonthlyStats s).meetingStats.get ⟨i, h2⟩).totalDuration =
            (s.meetingStats.get ⟨i, h⟩).totalDuration
        ∧ ((resetMonthlyStats s).meetingStats.get ⟨i, h2⟩).totalParticipants =
            (s.meetingStats.get ⟨i, h⟩).totalParticipants
        ∧ ((resetMonthlyStats s).meetingStats.get ⟨i, h2⟩).meetingsScheduled =
            (s.meetingStats.get ⟨i, h⟩).meetingsScheduled
        ∧ ((resetMonthlyStats s).meetingStats.get ⟨i, h2⟩).userId =
            (s.meetingStats.get ⟨i, h⟩).userId
        ∧ ((resetMonthlyStats s).meetingStats.get ⟨i, h2⟩).lastUpdated =
            (s.meetingStats.get ⟨i, h⟩).lastUpdated := by
  refine ⟨rfl, by simp [resetMonthlyStats], ?_⟩
  intro h2
  have hget : (resetMonthlyStats s).meetingStats.get ⟨i, h2⟩ =
      rollOver (s.meetingStats.get ⟨i, h⟩) := by
    simp [resetMonthlyStats, List.get_eq_getElem]
  rw [hget]
  exact ⟨rfl, rfl, rfl, rfl, rfl, rfl, rfl⟩

theorem c5_rollOverMonth_witness :
    0 < sampleStoreActive.meetingStats.length
    ∧ (resetMonthlyStats sampleStoreActive).meetingRecords =
        sampleStoreActive.meetingRecords
    ∧ ((resetMonthlyStats sampleStoreActive).meetingStats.get
          ⟨0, by decide⟩).totalDuration =
        (sampleStoreActive.meetingStats.get ⟨0, by decide⟩).totalDuration :=
  ⟨by decide, (c5_rollOverMonth sampleStoreActive 0 (by decide)).1,
   ((c5_rollOverMonth sampleStoreActive 0 (by decide)).2.2 (by decide)).2.2.1⟩

/-- C7: for every non-negative number of minutes, `formatDuration` renders
the floor of `m / 60` hours and `m mod 60` minutes; in particular
`formatDuration 125 = "2h 5m"` and `formatDuration 0 = "0h 0m"`. -/
theorem c7_formatDuration (m : ℤ) (h : 0 ≤ m) :
    formatDuration m = toString (m / 60) ++ "h " ++ toString (m % 60) ++ "m"
    ∧ formatDuration 125 = "2h 5m" ∧ formatDuration 0 = "0h 0m" := by
  refine ⟨?_, by decide, by decide⟩
  rw [formatDuration, jsFloorDiv, jsMod, Int.fdiv_eq_ediv _ (by norm_num),
    Int.tmod_eq_emod h (by norm_num)]

theorem c7_formatDuration_witness :
    (0 : ℤ) ≤ 125
    ∧ formatDuration 125 =
        toString ((125 : ℤ) / 60) ++ "h " ++ toString ((125 : ℤ) % 60) ++ "m" :=
  ⟨by norm_num, (c7_formatDuration 125 (by norm_num)).1⟩

/-- C10 counterexample: at `m = -60` the minutes part of `formatDuration m`
is `0` (JavaScript renders the negative-zero remainder as `"0"`), not a
negative value, so the claim's "the minutes part ... is negative" fails. -/
theorem c10_counterexample :
    formatDuration (-60) = "-1h 0m" ∧ ¬ jsMod (-60) 60 < 0 := by
  exact ⟨by decide, by decide⟩

/-- C10 amended: for every negative number of minutes, `formatDuration`
renders the floor of `m / 60` as the hour part and the JavaScript remainder
`m % 60` as the minutes part; that remainder is nonpositive, and it is zero
exactly when 60 divides `m` (so it is negative except at whole hours);
in particular `formatDuration (-5) = "-1h -5m"`. -/
theorem c10_formatDuration_negative (m : ℤ) (h : m < 0) :
    formatDuration m = toString ⌊(m : ℚ) / 60⌋ ++ "h " ++ toString (jsMod m 60) ++ "m"
    ∧ jsMod m 60 ≤ 0
    ∧ (jsMod m 60 = 0 ↔ (60 : ℤ) ∣ m)
    ∧ formatDuration (-5) = "-1h -5m" := by
  refine ⟨?_, ?_, ?_, by decide⟩
  · have hfloor : ⌊(m : ℚ) / 60⌋ = m / 60 := by
      have := Rat.floor_intCast_div_natCast m 60
      simpa using this
    rw [formatDuration, jsFloorDiv, Int.fdiv_eq_ediv _ (by norm_num), hfloor]
  · rw [jsMod]
    cases m with
    | ofNat k => exact absurd h ((Int.ofNat_nonneg k).not_lt)
    | negSucc k =>
      show Int.tmod (Int.negSucc k) (Int.ofNat 60) ≤ 0
      simp only [Int.tmod]
      have : (0 : ℤ) ≤ Int.ofNat (Nat.succ k % 60) := Int.ofNat_nonneg _
      linarith
  · rw [jsMod]
    exact Int.dvd_iff_tmod_eq_zero.symm

theorem c10_formatDuration_negative_witness :
    (-5 : ℤ) < 0
    ∧ formatDuration (-5) =
        toString ⌊((-5 : ℤ) : ℚ) / 60⌋ ++ "h " ++ toString (jsMod (-5) 60) ++ "m" :=
  ⟨by norm_num, (c10_formatDuration_negative (-5) (by norm_num)).1⟩

/-- C6 counterexample: starting from an empty store, when a concurrent
creation for user 1 lands between the findOne and the save, the save hits
the duplicate-key condition and `getUserStats` surfaces the error to the
caller instead of re-reading and returning the existing document. -/
theorem c6_counterexample :
    getUserStatsRace 0 1 [newStats 0 1] emptyStore = Except.error dupKeyMessage := by
  rfl

/-- C6 amended: when the insert of a freshly created statistics document hits
the store's duplicate-key condition (a concurrent creation won the race
between the findOne and the save), `getUserStats` propagates the
duplicate-key error to the caller — the catch block only logs and rethrows;
no re-read is performed and nothing is returned. -/
theorem c6_dupKey_propagates (now : ℤ) (u : ℕ) (raceInserted : List MeetingStats)
    (s : Store) (h1 : s.meetingStats.find? (statsKey u) = none)
    (h2 : (s.meetingStats ++ raceInserted).any (statsKey u) = true) :
    getUserStatsRace now u raceInserted s = Except.error dupKeyMessage := by
  simp [getUserStatsRace, h1, h2]

theorem c6_dupKey_propagates_witness :
    emptyStore.meetingStats.find? (statsKey 1) = none
    ∧ (emptyStore.meetingStats ++ [newStats 0 1]).any (statsKey 1) = true
    ∧ getUserStatsRace 0 1 [newStats 0 1] emptyStore = Except.error dupKeyMessage :=
  ⟨by decide, by decide,
   c6_dupKey_propagates 0 1 [newStats 0 1] emptyStore (by decide) (by decide)⟩

/-- C9: on failure each relay handler emits exactly one `stats-error`
message to the originating connection and performs no broadcast; a
`stats-updated` broadcast, carrying the user id together with the view, is
emitted exactly on success (the originator receives the bare view). -/
theorem c9_relay (now : ℤ) (u : ℕ) (mid title : String) (sch : Bool) (pc : ℤ)
    (s : Store) :
    (handleMeetingStartEmits false now u mid title sch s).1 =
      [Emission.toOrigin "stats-error" (RelayPayload.errorMessage statsErrorMessage)]
    ∧ (handleMeetingEndEmits false now u mid pc s).1 =
      [Emission.toOrigin "stats-error" (RelayPayload.errorMessage statsErrorMessage)]
    ∧ (∀ ok : Bool,
        ((handleMeetingStartEmits ok now u mid title sch s).1.any Emission.isBroadcast) = ok)
    ∧ (∀ ok : Bool,
        ((handleMeetingEndEmits ok now u mid pc s).1.any Emission.isBroadcast) = ok)
    ∧ (∃ v : FormattedView,
        (handleMeetingStartEmits true now u mid title sch s).1 =
          [Emission.toOrigin "stats-updated" (RelayPayload.view v),
           Emission.broadcastAll "stats-updated" (RelayPayload.userView u v)])
    ∧ (∃ v : FormattedView,
        (handleMeetingEndEmits true now u mid pc s).1 =
          [Emission.toOrigin "stats-updated" (RelayPayload.view v),
           Emission.broadcastAll "stats-updated" (RelayPayload.userView u v)]) := by
  refine ⟨rfl, rfl, ?_, ?_, ⟨_, rfl⟩, ⟨_, rfl⟩⟩
  · intro ok
    cases ok <;> simp [handleMeetingStartEmits, Emission.isBroadcast]
  · intro ok
    cases ok <;> simp [handleMeetingEndEmits, Emission.isBroadcast]

/-- C8 counterexample: with one stored meeting for user 1, the route read
with the caller-supplied limit 0 returns one projection rather than at most
zero — the route's falsy-or default `parseInt(req.query.limit) || 10` turns
a supplied 0 into the default 10. -/
theorem c8_counterexample :
    (apiRecentMeetings (fun t => toString t) 1 (some 0) sampleStoreOneMeeting).length = 1
    ∧ ¬ (apiRecentMeetings (fun t => toString t) 1 (some 0) sampleStoreOneMeeting).length ≤ 0 := by
  have h1 :
      (apiRecentMeetings (fun t => toString t) 1 (some 0) sampleStoreOneMeeting).length = 1 := by
    simp [apiRecentMeetings, parseLimit, getRecentMeetings, sampleStoreOneMeeting,
      sampleCompletedRecord]
  exact ⟨h1, by rw [h1]; decide⟩

/-- C8 amended: for every caller-supplied limit of at least 1, the
recent-meetings read returns at most that many projections, ordered newest
`startTime` first, each belonging to the requested user and carrying the
formatted duration of its record; an absent limit parameter defaults to 10,
and a supplied 0 also falls back to 10 through the route's falsy-or
default. -/
theorem c8_recentMeetings (fmtTime : ℤ → String) (u : ℕ) (n : ℤ) (s : Store)
    (hn : 1 ≤ n) :
    ((getRecentMeetings fmtTime u n s).length : ℤ) ≤ n
    ∧ (getRecentMeetings fmtTime u n s).Pairwise
        (fun a b => b.record.startTime ≤ a.record.startTime)
    ∧ (∀ v ∈ getRecentMeetings fmtTime u n s,
        v.formattedDuration = formatDuration v.record.duration ∧ v.record.userId = u)
    ∧ parseLimit none = 10
    ∧ parseLimit (some 0) = 10
    ∧ apiRecentMeetings fmtTime u (some n) s = getRecentMeetings fmtTime u n s := by
  have hne : ¬ n = 0 := by omega
  refine ⟨?_, ?_, ?_, rfl, by norm_num [parseLimit], ?_⟩
  · simp only [getRecentMeetings, if_neg hne, List.length_map, List.length_take]
    have h1 : (n.natAbs : ℤ) = n := Int.natAbs_of_nonneg (by omega)
    have h2 : min n.natAbs
        ((s.meetingRecords.filter (fun r => r.userId == u)).mergeSort
          (fun a b => decide (b.startTime ≤ a.startTime))).length ≤ n.natAbs :=
      min_le_left _ _
    omega
  · simp only [getRecentMeetings, if_neg hne]
    rw [List.pairwise_map]
    refine List.Pairwise.sublist (List.take_sublist _ _) ?_
    refine (List.sorted_mergeSort ?_ ?_
      (s.meetingRecords.filter (fun r => r.userId == u))).imp ?_
    · intro a b c hab hbc
      have h1 := of_decide_eq_true hab
      have h2 := of_decide_eq_true hbc
      exact decide_eq_true (le_trans h2 h1)
    · intro a b
      rcases le_total a.startTime b.startTime with h | h <;> simp [h]
    · intro a b hab
      exact of_decide_eq_true hab
  · intro v hv
    simp only [getRecentMeetings, if_neg hne, List.mem_map] at hv
    obtain ⟨m, hm, rfl⟩ := hv
    refine ⟨rfl, ?_⟩
    have hm2 := List.take_subset _ _ hm
    have hm3 := List.mem_mergeSort.mp hm2
    have hm4 := (List.mem_filter.mp hm3).2
    simpa using hm4
  · simp [apiRecentMeetings, parseLimit, hne]

theorem c8_recentMeetings_witness :
    (1 : ℤ) ≤ 2
    ∧ ((getRecentMeetings (fun t => toString t) 1 2 sampleStoreOneMeeting).length : ℤ) ≤ 2 :=
  ⟨by norm_num,
   (c8_recentMeetings (fun t => toString t) 1 2 sampleStoreOneMeeting (by norm_num)).1⟩

end MeetingStatsModel
